import Mathlib

/-!
Verification development for the wwithai-content-engine session orchestration
core.  We give a shallow embedding of the Request Client
(src/services/n8n.js, function processImage) and of the session state-machine
handlers (src/bot/handlers/photo.js and src/bot/handlers/callbacks.js), and
prove or refute the specified properties about them.

Modelling conventions:
- JS objects become structures; fields that may be absent become `Option`.
- An absent numeric field and a NaN value are identified as `none` (both are
  falsy, both propagate through `+ 1` to NaN, and no modelled code path
  distinguishes them).
- The awaited outcome of each HTTP attempt is supplied by an oracle
  `Nat → AttemptOutcome` (outcome of attempt number k), so the retry loop is
  a pure function of that oracle.  Wall-clock durations are irrelevant to
  every property and are passed in as plain parameters where stored.
- Thrown JS exceptions become `Except` / explicit error outputs.
-/

/-- Truthiness filter for a JS string value: `undefined` and the empty string
are falsy, any other string is kept. -/
def truthyS : Option String → Option String
  | none => none
  | some s => if s = "" then none else some s

/-- Template-literal rendering of a possibly-undefined JS string. -/
def jsStr (o : Option String) : String := o.getD "undefined"

/-- Retry configuration constant MAX_RETRIES from src/services/n8n.js. -/
def MAX_RETRIES : Nat := 3

/-- Retry configuration constant RETRY_DELAY_MS from src/services/n8n.js. -/
def RETRY_DELAY_MS : Nat := 2000

/-- Error value thrown by the HTTP layer (axios): a message, and the response
status when a response was received (absent for network/timeout errors). -/
structure JsErr where
  message : String
  responseStatus : Option Nat
deriving DecidableEq

/-- Outcome of one HTTP POST attempt to the webhook, as seen by the retry
loop in processImage: a 2xx response with its body fields, or a thrown error
classified the way the catch block observes it (a non-2xx response carrying a
status, a timeout, or a network error without a response). -/
inductive AttemptOutcome where
  | response (success : Bool) (imageUrl : Option String) (status : Option String)
      (failMsg : Option String)
  | httpError (status : Nat) (message : String)
  | timeoutErr (message : String)
  | netError (message : String)
deriving DecidableEq

/-- Value of the errorCode field of a failure result:
`lastError?.response?.status || 'NETWORK_ERROR'`. -/
inductive ErrCode where
  | httpStatus (n : Nat)
  | networkError
deriving DecidableEq

/-- Structured result object returned by processImage (durationMs, a pure
wall-clock reading, is not modelled). -/
structure PIResult where
  success : Bool
  imageUrl : Option String := none
  status : Option String := none
  error : Option String := none
  errorCode : Option ErrCode := none
deriving DecidableEq

/-- What one iteration of the retry loop decides: return a result to the
caller, break out of the loop on a 4xx client error, or fall through to the
retry logic with the caught error recorded. -/
inductive StepRes where
  | finish (r : PIResult)
  | clientBreak (e : JsErr)
  | transientErr (e : JsErr)
deriving DecidableEq

/-- Body of the try/catch inside the retry loop of processImage.  A 2xx
response returns immediately (success when `response.data?.success &&
response.data?.imageUrl` is truthy, a structured failure otherwise, with no
retry).  A thrown error with a 4xx response status hits the
`if (error.response && status >= 400 && status < 500) break` line; any other
thrown error falls through to the backoff-and-retry logic. -/
def attemptStep : AttemptOutcome → StepRes
  | .response success url st fm =>
    if success && (truthyS url).isSome then
      .finish { success := true, imageUrl := url }
    else
      .finish { success := false,
                error := some ((truthyS fm <|> truthyS st).getD "Processing failed"),
                status := st }
  | .httpError s m =>
    if 400 ≤ s ∧ s < 500 then .clientBreak ⟨m, some s⟩ else .transientErr ⟨m, some s⟩
  | .timeoutErr m => .transientErr ⟨m, none⟩
  | .netError m => .transientErr ⟨m, none⟩

/-- Result object built after the loop exits without returning:
`{ success: false, error: lastError?.message || 'Unknown error', errorCode:
lastError?.response?.status || 'NETWORK_ERROR' }`. -/
def exhaustedResult (lastError : Option JsErr) : PIResult :=
  { success := false,
    error := some ((truthyS (lastError.map JsErr.message)).getD "Unknown error"),
    errorCode := some (match lastError.bind JsErr.responseStatus with
      | some n => if n = 0 then .networkError else .httpStatus n
      | none => .networkError) }

/-- The retry for-loop of processImage (`for attempt = 1; attempt <=
MAX_RETRIES; attempt++`).  `attempt` is the current attempt number, `fuel`
the number of loop iterations still permitted (MAX_RETRIES + 1 - attempt at
every reachable call), `lastError` the last caught error and `delays` the
backoff delays slept so far.  Returns the result, the number of the last
attempt executed, and the list of backoff delays taken. -/
def piLoop (oracle : Nat → AttemptOutcome) :
    Nat → Nat → Option JsErr → List Nat → PIResult × Nat × List Nat
  | 0, attempt, lastError, delays => (exhaustedResult lastError, attempt - 1, delays)
  | fuel + 1, attempt, _lastError, delays =>
    match attemptStep (oracle attempt) with
    | .finish r => (r, attempt, delays)
    | .clientBreak e => (exhaustedResult (some e), attempt, delays)
    | .transientErr e =>
      if attempt < MAX_RETRIES then
        piLoop oracle fuel (attempt + 1) (some e) (delays ++ [RETRY_DELAY_MS * 2 ^ (attempt - 1)])
      else
        (exhaustedResult (some e), attempt, delays)

/-- The retry loop entered at attempt 1 with full fuel, as processImage runs
it once its header has executed. -/
def processImageRun (oracle : Nat → AttemptOutcome) : PIResult × Nat × List Nat :=
  piLoop oracle MAX_RETRIES 1 none []

/-- Argument object of processImage as destructured by its signature
`{ imageBase64, prompt, userId }`.  Callers may pass any object, so each
field may be absent; the call sites in photo.js pass `{ imageUrl, ... }`,
under which all three destructured fields are undefined. -/
structure PIParams where
  imageBase64 : Option String := none
  prompt : Option String := none
  userId : Option String := none
deriving DecidableEq

/-- A JS exception escaping processImage (as a rejected promise). -/
inductive JsException where
  | typeError (msg : String)
deriving DecidableEq

/-- Full embedding of processImage from src/services/n8n.js.  Before the
try/catch-protected loop, the logging header evaluates `prompt.length` and
`imageBase64.length`; if either field is undefined that line throws a
TypeError which propagates to the caller.  Otherwise the retry loop runs and
a structured result is always returned. -/
def processImage (p : PIParams) (oracle : Nat → AttemptOutcome) :
    Except JsException (PIResult × Nat × List Nat) :=
  match p.prompt, p.imageBase64 with
  | some _, some _ => .ok (processImageRun oracle)
  | _, _ =>
    .error (.typeError "Cannot read properties of undefined (reading \x27length\x27)")

/-- Session status values (SESSION_STATES in photo.js, plus the terminal
string `approved` that handleApprove writes outside that enumeration). -/
inductive SessionState where
  | awaitingDecorChoice
  | collectingDecor
  | awaitingTheme
  | awaitingAngle
  | processing
  | awaitingImageFeedback
  | pendingApproval
  | approved
deriving DecidableEq

/-- One record of the pendingContent map (the Session Store).  Fields that
handlers add only later in the flow are `Option` with `none` meaning the
property is absent from the JS object; for `attempts`, `none` also covers a
NaN value (both are falsy and both propagate through `+ 1` to NaN). -/
structure Content where
  userId : Nat
  chatId : Nat
  foodPhotoUrl : String
  foodPhotoFileId : String
  decorPhotos : List String
  theme : Option String
  angle : Option String
  restaurantName : String
  createdAt : String
  status : SessionState
  enhancedUrl : Option String := none
  caption : Option String := none
  hashtags : Option (List String) := none
  analysis : Option Unit := none
  processingTimeMs : Option Nat := none
  attempts : Option Nat := none
  variationMode : Option Bool := none
  platforms : Option (List String) := none
deriving DecidableEq

/-- Payload fields of a successful webhook result as destructured by
processWithSettings / processWithVariation from `result.data`. -/
structure ResultData where
  enhancedUrl : Option String := none
  caption : Option String := none
  hashtags : Option (List String) := none
  analysis : Option Unit := none
deriving DecidableEq

/-- The awaited value of the `processImage` call as the photo handlers
consume it: `result.success`, `result.error`, `result.data`.  The handlers
are verified against this simulated Request Client result (spec section 4.2
treats the client as a collaborator supplying such a value). -/
structure ProcResult where
  success : Bool
  error : Option String := none
  data : Option ResultData := none
deriving DecidableEq

/-- Argument object the photo handlers pass to the Request Client. -/
structure N8nCallParams where
  imageUrl : String
  userId : String
  chatId : String
  restaurantName : String
  theme : Option String
  angle : Option String
  decorPhotos : List String
  hasDecorReference : Bool
  variation : Option Bool := none
  attemptNumber : Option (Option Nat) := none
deriving DecidableEq

/-- Observable effects a handler performs besides mutating the store:
Telegram replies/edits, the webhook call, fire-and-forget Notion logging,
and the delayed-cleanup timer. -/
inductive Eff where
  | answerCb (text : String)
  | editText (text : String)
  | editCaption (text : String)
  | editMarkup
  | reply (text : String)
  | replyPhoto (url : String) (caption : String)
  | deleteMsg
  | n8nCall (p : N8nCallParams)
  | notionLog
  | notionUpdate
  | scheduleCleanup
deriving DecidableEq

/-- JS `attempts + 1` where the field may be absent: undefined + 1 is NaN. -/
def jsAdd1 : Option Nat → Option Nat
  | some n => some (n + 1)
  | none => none

/-- Template-literal rendering of a possibly-NaN number. -/
def jsNumStr : Option Nat → String
  | some n => toString n
  | none => "NaN"

/-- Function generateFallbackCaption from photo.js. -/
def generateFallbackCaption (theme : Option String) : String :=
  if theme = some "brunch" then "Le brunch parfait pour commencer la journée."
  else if theme = some "lunch" then "Pause lunch bien méritée."
  else if theme = some "dinner" then "Une soirée qui s\x27annonce savoureuse."
  else if theme = some "event" then "Moment de célébration!"
  else if theme = some "royal" then "Un repas digne de la tradition thaïlandaise."
  else "Fraîchement préparé avec amour."

/-- Function getDefaultHashtags from photo.js. -/
def getDefaultHashtags (theme : Option String) : List String :=
  if theme = some "brunch" then ["#brunchmontreal", "#weekendvibes", "#foodiemtl", "#thaifood"]
  else if theme = some "lunch" then ["#lunchmtl", "#pauselunch", "#foodporn", "#mtlfood"]
  else if theme = some "dinner" then ["#dinnerdate", "#finedining", "#mtlrestaurants", "#thaicuisine"]
  else if theme = some "event" then ["#celebration", "#eventmtl", "#foodcatering", "#partyfood"]
  else if theme = some "royal" then ["#royalthai", "#authenticthai", "#thaiculture", "#luxurydining"]
  else ["#foodie", "#restaurant", "#bonappetit"]

/-- Function formatCaption from photo.js (template literal, so an undefined
caption or hashtags value renders as the string `undefined`). -/
def formatCaption (caption : Option String) (hashtags : Option (List String)) : String :=
  jsStr caption ++ "\n\n" ++
    (match hashtags with
     | some l => String.intercalate " " l
     | none => "undefined")

/-- Caption transform makePunchy from callbacks.js.  Case mapping and the
150-unit cut are modelled at the codepoint level (the JS original uses
Unicode toUpperCase and UTF-16 substring). -/
def makePunchy (caption : String) : String :=
  (((caption.replace "." "!").replace "," " 🔥").toUpper.take 150) ++ "..."

/-- Caption transform makeChill from callbacks.js. -/
def makeChill (caption : String) : String :=
  ((caption.toLower).replace "!" ".").replace "🔥" "✨"

/-- Caption transform makeShort from callbacks.js: first sentence of the
split on `[.!?]` plus a period. -/
def makeShort (caption : String) : String :=
  ((caption.split fun ch => ch = '.' || ch = '!' || ch = '?').headD "") ++ "."

/-- Caption transform makeDetailed from callbacks.js. -/
def makeDetailed (caption : String) : String :=
  caption ++ "\n\n📍 Réservations ouvertes. Lien en bio."

/-- The switch statement of handleStyleChange, as a function of the style
tag and the current caption (`original` and unrecognized tags keep the
caption unchanged, matching the absent default clause). -/
def remixCaption (style : String) (caption : String) : String :=
  if style = "punchy" then makePunchy caption
  else if style = "chill" then makeChill caption
  else if style = "short" then makeShort caption
  else if style = "detailed" then makeDetailed caption
  else caption

/-- Parameter object built by processWithSettings for its processImage call. -/
def settingsCallParams (c : Content) : N8nCallParams :=
  { imageUrl := c.foodPhotoUrl
    userId := toString c.userId
    chatId := toString c.chatId
    restaurantName := c.restaurantName
    theme := c.theme
    angle := c.angle
    decorPhotos := c.decorPhotos
    hasDecorReference := !c.decorPhotos.isEmpty }

/-- Parameter object built by processWithVariation for its processImage
call: same fields plus `variation: true` and `attemptNumber: attempts + 1`. -/
def variationCallParams (c : Content) : N8nCallParams :=
  { settingsCallParams c with
    variation := some true
    attemptNumber := some (jsAdd1 c.attempts) }

/-- Progress text edited into the chat while processWithSettings runs. -/
def settingsProgressText : String :=
  "⏳ *Transformation en cours...*\n\n🔍 Analyse du plat...\n✨ Application du style..."

/-- Failure reply of processWithSettings (its catch block). -/
def settingsFailureText : String :=
  "😔 Oups! Une erreur est survenue.\n\nEssaie à nouveau avec une autre photo, ou vérifie que:\n• La photo n\x27est pas trop grande (< 10MB)\n• La connexion internet est stable\n\nSi le problème persiste, contacte @wwithai"

/-- Caption of the result photo sent by processWithSettings. -/
def settingsPhotoCaption (c : Content) (attempt ptMs : Nat) : String :=
  "✨ *Image générée* (tentative " ++ toString attempt ++ ")\n\n🎨 Thème: " ++
    jsStr c.theme ++ "\n📐 Angle: " ++ jsStr c.angle ++ "\n⏱ Généré en " ++
    toString ((ptMs + 500) / 1000) ++ "s\n\n_Est-ce que cette image te convient?_"

/-- Function processWithSettings from photo.js.  `cStart` is the record read
by the `pendingContent.get` at the top of the function, `cCompletion` the
record stored under the same contentId at the moment the awaited Request
Client call returns (equal to `cStart` unless the record was deleted or
replaced while the request was in flight), `result` the awaited value of the
processImage call, and `ptMs` the measured processing time.  On success the
function overwrites the store entry with a record built from the `cStart`
snapshot; on failure (result.success false, which the code turns into a
thrown error caught by the catch block) it only replies, leaving the store
entry as it is at completion time.  Telegram sends/edits are modelled as
non-failing effects. -/
def processWithSettings (cStart : Option Content) (result : ProcResult)
    (cCompletion : Option Content) (ptMs : Nat) : Option Content × List Eff :=
  match cStart with
  | none => (cCompletion, [.answerCb "⚠️ Session expirée"])
  | some c =>
    let pre : List Eff := [.answerCb "⏳ Transformation en cours...",
      .editText settingsProgressText, .n8nCall (settingsCallParams c)]
    if result.success then
      let d := result.data.getD {}
      let enhancedUrl := d.enhancedUrl.getD c.foodPhotoUrl
      let caption := d.caption.getD (generateFallbackCaption c.theme)
      let hashtags := d.hashtags.getD (getDefaultHashtags c.theme)
      let attempt := c.attempts.getD 0 + 1
      let c2 : Content := { c with
        enhancedUrl := some enhancedUrl
        caption := some caption
        hashtags := some hashtags
        analysis := some (d.analysis.getD ())
        processingTimeMs := some ptMs
        attempts := some attempt
        status := .awaitingImageFeedback }
      (some c2, pre ++ [.notionLog, .deleteMsg,
        .replyPhoto enhancedUrl (settingsPhotoCaption c attempt ptMs)])
    else
      (cCompletion, pre ++ [.deleteMsg, .reply settingsFailureText])

/-- Progress reply sent by processWithVariation before its webhook call. -/
def variationProgressText (c : Content) : String :=
  "🔄 *Génération d\x27une variation...*\n\nTentative " ++ jsNumStr (jsAdd1 c.attempts) ++
    "\n✨ Création d\x27un nouveau setup..."

/-- Failure reply of processWithVariation (its catch block). -/
def variationFailureText : String :=
  "😔 Erreur lors de la génération.\n\nEssaie à nouveau ou envoie une nouvelle photo."

/-- Caption of the result photo sent by processWithVariation. -/
def variationPhotoCaption (c : Content) (newAttempt : Option Nat) (ptMs : Nat) : String :=
  "✨ *Nouvelle variation* (tentative " ++ jsNumStr newAttempt ++ ")\n\n🎨 Thème: " ++
    jsStr c.theme ++ "\n📐 Angle: " ++ jsStr c.angle ++ "\n⏱ Généré en " ++
    toString ((ptMs + 500) / 1000) ++ "s\n\n_Est-ce que cette image te convient?_"

/-- Function processWithVariation from photo.js, with the same reading of
`cStart` / `cCompletion` / `result` as processWithSettings.  Its success path
also overwrites the store entry from the snapshot; its catch path only
replies. -/
def processWithVariation (cStart : Option Content) (result : ProcResult)
    (cCompletion : Option Content) (ptMs : Nat) : Option Content × List Eff :=
  match cStart with
  | none => (cCompletion, [.reply "⚠️ Session expirée. Envoie une nouvelle photo."])
  | some c =>
    let pre : List Eff := [.reply (variationProgressText c),
      .n8nCall (variationCallParams c)]
    if result.success then
      let d := result.data.getD {}
      let enhancedUrl := d.enhancedUrl.getD c.foodPhotoUrl
      let caption := d.caption.getD (generateFallbackCaption c.theme)
      let hashtags := d.hashtags.getD (getDefaultHashtags c.theme)
      let newAttempt := jsAdd1 c.attempts
      let c2 : Content := { c with
        enhancedUrl := some enhancedUrl
        caption := some caption
        hashtags := some hashtags
        analysis := some (d.analysis.getD ())
        processingTimeMs := some ptMs
        attempts := newAttempt
        variationMode := some false
        status := .awaitingImageFeedback }
      (some c2, pre ++ [.deleteMsg,
        .replyPhoto enhancedUrl (variationPhotoCaption c newAttempt ptMs)])
    else
      (cCompletion, pre ++ [.reply variationFailureText])

/-- Function handleFoodPhoto from photo.js: create the initial session
record and ask about decor photos (the per-key view: the fresh uuid key held
no record before). -/
def handleFoodPhoto (userId chatId : Nat) (url fileId : String)
    (firstName : Option String) (createdAt : String) : Option Content × List Eff :=
  (some { userId := userId
          chatId := chatId
          foodPhotoUrl := url
          foodPhotoFileId := fileId
          decorPhotos := []
          theme := none
          angle := none
          restaurantName := (truthyS firstName).getD "Restaurant"
          createdAt := createdAt
          status := .awaitingDecorChoice },
   [.reply "📸 *Photo reçue!*\n\nVeux-tu ajouter des photos de ton décor/ambiance pour un meilleur résultat?\n_(1-3 photos optionnelles de l\x27intérieur de ton resto)_"])

/-- Function handleDecorPhoto from photo.js: reject with a prompt once three
decor photos are stored, otherwise append exactly one reference. -/
def handleDecorPhoto (c : Option Content) (url : String) : Option Content × List Eff :=
  match c with
  | none => (none, [.reply "⚠️ Session expirée. Envoie une nouvelle photo de plat."])
  | some content =>
    if 3 ≤ content.decorPhotos.length then
      (some content,
       [.reply "⚠️ Maximum 3 photos de décor atteint.\nClique sur \"Terminé, continuer\" pour passer à la suite."])
    else
      let c2 : Content := { content with decorPhotos := content.decorPhotos ++ [url] }
      let count := c2.decorPhotos.length
      let remaining := 3 - count
      if 0 < remaining then
        (some c2, [.reply ("✅ Photo de décor " ++ toString count ++ "/3 ajoutée!\n\nTu peux en ajouter " ++ toString remaining ++ " de plus, ou continuer.")])
      else
        (some c2, [.reply "✅ 3 photos de décor ajoutées! Maximum atteint.\n\nClique pour continuer."])

/-- Function handleDecorChoice from photo.js (choices `yes`, `skip`, `done`;
any other choice string falls through both branches with no action). -/
def handleDecorChoice (c : Option Content) (choice : String) : Option Content × List Eff :=
  match c with
  | none => (none, [.answerCb "⚠️ Session expirée"])
  | some content =>
    if choice = "yes" then
      (some { content with status := .collectingDecor },
       [.answerCb "📷 Envoie tes photos de décor",
        .editText "📷 *Envoie 1 à 3 photos de ton décor/ambiance*\n\nPar exemple:\n• L\x27intérieur de ton restaurant\n• Ta table typique\n• L\x27éclairage/ambiance\n\n_Clique sur \"Terminé\" quand tu as fini._"])
    else if choice = "skip" ∨ choice = "done" then
      let decorCount := content.decorPhotos.length
      let decorMsg := if 0 < decorCount then
          "\n\n_" ++ toString decorCount ++ " photo(s) de décor en référence_"
        else ""
      (some { content with status := .awaitingTheme },
       [.answerCb (if 0 < decorCount then "✅ Décor enregistré" else "⏭️ Continué sans décor"),
        .editText ("🎨 *Choisis l\x27ambiance de ta photo:*" ++ decorMsg)])
    else
      (some content, [])

/-- Function handleThemeSelection from photo.js.  Only the existence of the
record is validated; the current state is not inspected. -/
def handleThemeSelection (c : Option Content) (theme : String) : Option Content × List Eff :=
  match c with
  | none => (none, [.answerCb "⚠️ Session expirée"])
  | some content =>
    (some { content with theme := some theme, status := .awaitingAngle },
     [.answerCb ("🎨 Thème: " ++ theme),
      .editText "📐 *Choisis l\x27angle de prise de vue:*\n\n• 45° Classique - idéal pour bols et assiettes\n• Vue du haut - pour compositions et tables\n• Niveau des yeux - pour plats hauts, burgers\n• 3/4 Angle - polyvalent et naturel"])

/-- Function handleAngleSelection from photo.js: set the angle, move to
processing and immediately run processWithSettings (which re-reads the record
it just stored). -/
def handleAngleSelection (c : Option Content) (angle : String) (result : ProcResult)
    (ptMs : Nat) : Option Content × List Eff :=
  match c with
  | none => (none, [.answerCb "⚠️ Session expirée"])
  | some content =>
    let c1 : Content := { content with angle := some angle, status := .processing }
    processWithSettings (some c1) result (some c1) ptMs

/-- Function handleImageOk from photo.js. -/
def handleImageOk (c : Option Content) : Option Content × List Eff :=
  match c with
  | none => (none, [.answerCb "⚠️ Session expirée"])
  | some content =>
    (some { content with status := .pendingApproval },
     [.answerCb "✅ Image approuvée!",
      .editCaption ("✨ *Voici ta photo transformée!*\n\n" ++
        formatCaption content.caption content.hashtags ++
        "\n\n_Approuve pour copier la caption, ou modifie le texte._")])

/-- Function handleImageRetry from photo.js: `style` and `angle` reopen the
respective selection; any other retry type (the `variation` button) sets the
variation flag, moves to processing and runs processWithVariation. -/
def handleImageRetry (c : Option Content) (retryType : String) (result : ProcResult)
    (ptMs : Nat) : Option Content × List Eff :=
  match c with
  | none => (none, [.answerCb "⚠️ Session expirée"])
  | some content =>
    if retryType = "style" then
      (some { content with status := .awaitingTheme },
       [.answerCb "🎨 Choisis un nouveau style",
        .editCaption "🎨 *Choisis un nouveau style:*\n\n_L\x27image sera régénérée avec ce thème._"])
    else if retryType = "angle" then
      (some { content with status := .awaitingAngle },
       [.answerCb "📐 Choisis un nouvel angle",
        .editCaption "📐 *Choisis un nouvel angle:*\n\n_L\x27image sera régénérée avec cet angle._"])
    else
      let c1 : Content := { content with variationMode := some true, status := .processing }
      let out := processWithVariation (some c1) result (some c1) ptMs
      (out.1, [.answerCb "🔄 Génération d\x27une variation...", .deleteMsg] ++ out.2)

/-- Function handleApprove from callbacks.js: writes status `approved`
(idempotently on a second press), replies with the final caption and
schedules the delayed cleanup. -/
def handleApprove (c : Option Content) : Option Content × List Eff :=
  match c with
  | none => (none, [.answerCb "⚠️ Contenu expiré"])
  | some content =>
    let hashtagString := match content.hashtags with
      | some l => String.intercalate " " l
      | none => ""
    let fullCaption := content.caption.getD "" ++ "\n\n" ++ hashtagString
    (some { content with status := .approved },
     [.notionUpdate, .answerCb "✅ Approuvé!",
      .editCaption ("🎉 *Post approuvé!*\n\n📋 Copie cette caption:\n\n\x60\x60\x60\n" ++
        fullCaption ++ "\n\x60\x60\x60\n\n📤 Prêt à poster sur Instagram!"),
      .scheduleCleanup])

/-- Function handleModify from callbacks.js. -/
def handleModify (c : Option Content) : Option Content × List Eff :=
  match c with
  | none => (none, [.answerCb "⚠️ Contenu expiré"])
  | some content =>
    (some content, [.answerCb "✏️ Choisis un style", .editMarkup])

/-- Function handleReject from callbacks.js (note: it edits the message but
does not change the stored record). -/
def handleReject (c : Option Content) : Option Content × List Eff :=
  match c with
  | none => (none, [.answerCb "⚠️ Contenu expiré"])
  | some content =>
    (some content,
     [.answerCb "❌ Refusé",
      .editCaption "😔 Pas de problème!\n\nDis-moi ce qui ne va pas pour que j\x27apprenne:"])

/-- Hashtag string as handleStyleChange renders it. -/
def hashtagStrOf (content : Content) : String :=
  match content.hashtags with
  | some l => String.intercalate " " l
  | none => ""

/-- Function handleStyleChange from callbacks.js, composed with the catch
block of handleCallback: when a transform tag is applied to an absent
caption, the transform helper throws a TypeError which handleCallback
answers with a generic error, leaving the record untouched. -/
def handleStyleChange (c : Option Content) (style : String) : Option Content × List Eff :=
  match c with
  | none => (none, [.answerCb "⚠️ Contenu expiré"])
  | some content =>
    let isTransform := style = "punchy" ∨ style = "chill" ∨ style = "short" ∨
      style = "detailed"
    match content.caption with
    | none =>
      if isTransform then
        (some content, [.answerCb "🎨 Modification en cours...",
          .answerCb "Une erreur est survenue"])
      else
        (some content, [.answerCb "🎨 Modification en cours...",
          .editCaption ("✨ *Nouvelle version:*\n\nundefined\n\n" ++ hashtagStrOf content)])
    | some cap =>
      let newCaption := remixCaption style cap
      (some { content with caption := some newCaption },
       [.answerCb "🎨 Modification en cours...",
        .editCaption ("✨ *Nouvelle version:*\n\n" ++ newCaption ++ "\n\n" ++
          hashtagStrOf content)])

/-- Function handleFeedback from callbacks.js: logs, deletes the record
without any existence check, and thanks the user. -/
def handleFeedback (_c : Option Content) (_feedbackType : String) :
    Option Content × List Eff :=
  (none,
   [.notionUpdate, .answerCb "Merci pour ton feedback!",
    .editCaption "💡 *Merci pour ton feedback!*\n\nÇa m\x27aide à m\x27améliorer.\n\n📸 Envoie une nouvelle photo quand tu veux!"])

/-- Function handlePlatformSelect from callbacks.js. -/
def handlePlatformSelect (c : Option Content) (platform : String) :
    Option Content × List Eff :=
  let platforms := if platform = "all" then ["instagram", "tiktok", "facebook"]
    else [platform]
  (match c with
   | none => none
   | some content => some { content with platforms := some platforms },
   [.answerCb ("📱 " ++ String.intercalate ", " platforms ++ " sélectionné")])

/-- Events addressed to one session, as routed by handleCallback and the
photo message handlers.  Events whose handler awaits the Request Client
carry the simulated result of that call and the measured processing time. -/
inductive Event where
  | foodPhoto (userId chatId : Nat) (url fileId : String) (firstName : Option String)
      (createdAt : String)
  | decorPhoto (url : String)
  | decorChoice (choice : String)
  | themeSelect (theme : String)
  | angleSelect (angle : String) (result : ProcResult) (ptMs : Nat)
  | imageOk
  | imageRetry (retryType : String) (result : ProcResult) (ptMs : Nat)
  | approve
  | modify
  | reject
  | styleChange (style : String)
  | feedback (feedbackType : String)
  | platformSelect (platform : String)
deriving DecidableEq

/-- One atomic application of an event to the record stored under one
contentId (the single-writer per-session timeline). -/
def step (c : Option Content) : Event → Option Content × List Eff
  | .foodPhoto userId chatId url fileId firstName createdAt =>
    handleFoodPhoto userId chatId url fileId firstName createdAt
  | .decorPhoto url => handleDecorPhoto c url
  | .decorChoice choice => handleDecorChoice c choice
  | .themeSelect theme => handleThemeSelection c theme
  | .angleSelect angle result ptMs => handleAngleSelection c angle result ptMs
  | .imageOk => handleImageOk c
  | .imageRetry retryType result ptMs => handleImageRetry c retryType result ptMs
  | .approve => handleApprove c
  | .modify => handleModify c
  | .reject => handleReject c
  | .styleChange style => handleStyleChange c style
  | .feedback feedbackType => handleFeedback c feedbackType
  | .platformSelect platform => handlePlatformSelect c platform

/-- Fold of a sequence of events over one session's record. -/
def runEvents (c : Option Content) (es : List Event) : Option Content :=
  es.foldl (fun acc e => (step acc e).1) c

/-- Number of stored decor references. -/
def decorLen : Option Content → Nat
  | none => 0
  | some c => c.decorPhotos.length

/-- The attempts counter of a stored record, `none` when the record or the
field is absent. -/
def attemptsOf : Option Content → Option Nat
  | none => none
  | some c => c.attempts

/-- The stored caption of a record, when present. -/
def captionOf : Option Content → Option String
  | none => none
  | some c => c.caption

/-- Recognizes the stale-session signals handlers send for a missing
record (the two answerCbQuery texts and the two reply texts used for that
purpose in photo.js and callbacks.js). -/
def isExpiredSignal : Eff → Bool
  | .answerCb s => s == "⚠️ Session expirée" || s == "⚠️ Contenu expiré"
  | .reply s => s == "⚠️ Session expirée. Envoie une nouvelle photo de plat." ||
      s == "⚠️ Session expirée. Envoie une nouvelle photo."
  | _ => false

/-- Whether an effect list contains a stale-session signal. -/
def hasExpiredSignal (effs : List Eff) : Bool := effs.any isExpiredSignal

/-- Whether an effect is an outbound Request Client call. -/
def isN8nCall : Eff → Bool
  | .n8nCall _ => true
  | _ => false

/-- Whether an effect list invokes the Request Client. -/
def callsN8n (effs : List Eff) : Bool := effs.any isN8nCall

/-- Whether an effect is one of the user-visible failure replies. -/
def isFailureReply : Eff → Bool
  | .reply s => s.startsWith "😔"
  | _ => false

/-- Events that create a fresh session under a fresh key. -/
def isCreateEvent : Event → Bool
  | .foodPhoto .. => true
  | _ => false

/-- Events whose handler looks the session up and answers with a
stale-session signal when it is missing (all except session creation, the
feedback handler and the platform selector, which skip the check). -/
def checksStore : Event → Bool
  | .foodPhoto .. => false
  | .feedback _ => false
  | .platformSelect _ => false
  | _ => true

/-- Concrete session record sitting in the Processing state (used to settle
claims on concrete inputs). -/
def cProc : Content :=
  { userId := 7
    chatId := 7
    foodPhotoUrl := "https://api.telegram.org/file/food.jpg"
    foodPhotoFileId := "file1"
    decorPhotos := []
    theme := some "dinner"
    angle := some "45"
    restaurantName := "Chez Nous"
    createdAt := "2026-01-01T00:00:00.000Z"
    status := .processing
    attempts := some 1 }

/-- Concrete record in the Processing state during a variation request. -/
def cProcB : Content :=
  { cProc with
    attempts := some 2
    variationMode := some true
    caption := some "Bon appétit."
    hashtags := some ["#resto"]
    enhancedUrl := some "https://old.example/img.png" }

/-- Concrete record whose processing request is in flight. -/
def cProcC : Content := { cProc with attempts := none }

/-- Concrete record collecting decor photos with the cap already reached. -/
def cCollect : Content :=
  { cProc with
    status := .collectingDecor
    decorPhotos := ["https://d/1.jpg", "https://d/2.jpg", "https://d/3.jpg"]
    theme := none
    angle := none
    attempts := none }

/-- A failing Request Client result, as the handlers see it. -/
def procFail : ProcResult := { success := false, error := some "Processing failed" }

/-- A successful Request Client result carrying a payload. -/
def procOk : ProcResult :=
  { success := true
    data := some { enhancedUrl := some "https://new.example/img.png"
                   caption := some "Miam."
                   hashtags := some ["#resto"]
                   analysis := some () } }

/-- Oracle whose attempts 1 and 2 fail transiently and whose attempt 3
succeeds. -/
def oracleW : Nat → AttemptOutcome := fun k =>
  if k = 1 then .timeoutErr "timeout of 10000ms exceeded"
  else if k = 2 then .netError "socket hang up"
  else .response true (some "https://res.example/img.png") (some "success") none

/-- Oracle that answers 404 on every attempt. -/
def oracle4xx : Nat → AttemptOutcome := fun _ =>
  .httpError 404 "Request failed with status code 404"

/-- Oracle that fails with a connection error on every attempt. -/
def oracleNet : Nat → AttemptOutcome := fun _ => .netError "ECONNREFUSED"

/-- Argument object the call sites in photo.js actually pass to processImage
(`{ imageUrl, userId, chatId, ... }`): none of the three destructured fields
is present. -/
def photoJsParams : PIParams := {}

/-- Backoff delay slept after the i-th (0-based) transiently failed attempt. -/
def backoffDelay (i : Nat) : Nat := RETRY_DELAY_MS * 2 ^ i

/-- Transient failure classifications in the sense of the spec: network
error, timeout, or downstream 5xx. -/
def isTransientSpec : AttemptOutcome → Bool
  | .timeoutErr _ => true
  | .netError _ => true
  | .httpError s _ => decide (500 ≤ s)
  | .response .. => false

lemma piLoop_succ (oracle : Nat → AttemptOutcome) (fuel k : Nat) (le : Option JsErr)
    (ds : List Nat) :
    piLoop oracle (fuel + 1) k le ds =
      match attemptStep (oracle k) with
      | .finish r => (r, k, ds)
      | .clientBreak e => (exhaustedResult (some e), k, ds)
      | .transientErr e =>
        if k < MAX_RETRIES then
          piLoop oracle fuel (k + 1) (some e) (ds ++ [RETRY_DELAY_MS * 2 ^ (k - 1)])
        else
          (exhaustedResult (some e), k, ds) := rfl

lemma transient_of_attemptStep (o : AttemptOutcome) (e : JsErr)
    (hs : ∀ s m, o = .httpError s m → 400 ≤ s)
    (h : attemptStep o = .transientErr e) : isTransientSpec o = true := by
  cases o with
  | response success url st fm =>
    simp only [attemptStep] at h
    split at h <;> simp at h
  | httpError s m =>
    have h400 := hs s m rfl
    simp only [attemptStep] at h
    split at h
    · simp at h
    · rename_i hcond
      simp only [isTransientSpec, decide_eq_true_eq]
      omega
  | timeoutErr m => rfl
  | netError m => rfl

lemma attemptStep_of_transient (o : AttemptOutcome) (h : isTransientSpec o = true) :
    ∃ e, attemptStep o = .transientErr e := by
  cases o with
  | response success url st fm => simp [isTransientSpec] at h
  | httpError s m =>
    simp only [isTransientSpec, decide_eq_true_eq] at h
    refine ⟨⟨m, some s⟩, ?_⟩
    simp only [attemptStep]
    rw [if_neg (by omega : ¬(400 ≤ s ∧ s < 500))]
  | timeoutErr m => exact ⟨⟨m, none⟩, rfl⟩
  | netError m => exact ⟨⟨m, none⟩, rfl⟩

lemma piLoop_made_le (oracle : Nat → AttemptOutcome) (fuel : Nat) :
    ∀ (k : Nat) (le : Option JsErr) (ds : List Nat),
      (piLoop oracle fuel k le ds).2.1 ≤ k + fuel - 1 := by
  induction fuel with
  | zero => intro k le ds; simp [piLoop]
  | succ n ih =>
    intro k le ds
    rw [piLoop_succ]
    cases h : attemptStep (oracle k) with
    | finish r => simp
    | clientBreak e => simp
    | transientErr e =>
      by_cases hk : k < MAX_RETRIES
      · simp only [if_pos hk]
        have := ih (k + 1) (some e) (ds ++ [RETRY_DELAY_MS * 2 ^ (k - 1)])
        omega
      · simp only [if_neg hk]
        simp

lemma piLoop_delays_shape (oracle : Nat → AttemptOutcome) (fuel : Nat) :
    ∀ (k : Nat) (le : Option JsErr), 1 ≤ k → k ≤ MAX_RETRIES →
      k + fuel = MAX_RETRIES + 1 →
      (piLoop oracle fuel k le ((List.range (k - 1)).map backoffDelay)).2.2 =
        (List.range
          ((piLoop oracle fuel k le ((List.range (k - 1)).map backoffDelay)).2.1 - 1)).map
          backoffDelay := by
  induction fuel with
  | zero =>
    intro k le h1 h2 h3
    simp only [MAX_RETRIES] at h2 h3
    omega
  | succ n ih =>
    intro k le h1 h2 h3
    rw [piLoop_succ]
    cases h : attemptStep (oracle k) with
    | finish r => simp
    | clientBreak e => simp
    | transientErr e =>
      by_cases hk : k < MAX_RETRIES
      · simp only [if_pos hk]
        have harr : (List.range (k - 1)).map backoffDelay ++ [RETRY_DELAY_MS * 2 ^ (k - 1)] =
            (List.range (k + 1 - 1)).map backoffDelay := by
          have hk1 : k + 1 - 1 = (k - 1) + 1 := by omega
          rw [hk1, List.range_succ, List.map_append]
          simp only [List.map_cons, List.map_nil, backoffDelay]
        rw [harr]
        exact ih (k + 1) (some e) (by omega) (by omega) (by omega)
      · simp only [if_neg hk]

lemma piLoop_transient_prefix (oracle : Nat → AttemptOutcome)
    (hs : ∀ k s m, oracle k = .httpError s m → 400 ≤ s) (fuel : Nat) :
    ∀ (k : Nat) (le : Option JsErr) (ds : List Nat) (j : Nat),
      k ≤ j → j < (piLoop oracle fuel k le ds).2.1 → isTransientSpec (oracle j) = true := by
  induction fuel with
  | zero =>
    intro k le ds j hkj hj
    simp only [piLoop] at hj
    omega
  | succ n ih =>
    intro k le ds j hkj hj
    rw [piLoop_succ] at hj
    cases h : attemptStep (oracle k) with
    | finish r => rw [h] at hj; simp at hj; omega
    | clientBreak e => rw [h] at hj; simp at hj; omega
    | transientErr e =>
      rw [h] at hj
      by_cases hk : k < MAX_RETRIES
      · simp only [if_pos hk] at hj
        by_cases hjk : j = k
        · subst hjk
          exact transient_of_attemptStep (oracle j) e (hs j) h
        · exact ih (k + 1) (some e) _ j (by omega) hj
      · simp only [if_neg hk] at hj
        omega

lemma attemptStep_finish_error (o : AttemptOutcome) (r : PIResult)
    (h : attemptStep o = .finish r) (hf : r.success = false) : r.error.isSome = true := by
  cases o with
  | response success url st fm =>
    simp only [attemptStep] at h
    split at h
    · cases h
      simp at hf
    · cases h
      rfl
  | httpError s m =>
    simp only [attemptStep] at h
    split at h <;> simp at h
  | timeoutErr m => simp [attemptStep] at h
  | netError m => simp [attemptStep] at h

lemma piLoop_failure_error (oracle : Nat → AttemptOutcome) (fuel : Nat) :
    ∀ (k : Nat) (le : Option JsErr) (ds : List Nat),
      ((piLoop oracle fuel k le ds).1).success = false →
      ((piLoop oracle fuel k le ds).1).error.isSome = true := by
  induction fuel with
  | zero => intro k le ds _; simp [piLoop, exhaustedResult]
  | succ n ih =>
    intro k le ds hf
    rw [piLoop_succ] at hf ⊢
    cases h : attemptStep (oracle k) with
    | finish r =>
      rw [h] at hf
      exact attemptStep_finish_error (oracle k) r h hf
    | clientBreak e => rfl
    | transientErr e =>
      rw [h] at hf
      by_cases hk : k < MAX_RETRIES
      · simp only [if_pos hk] at hf ⊢
        exact ih (k + 1) (some e) _ hf
      · simp only [if_neg hk]
        rfl

lemma piLoop_fuel3 (oracle : Nat → AttemptOutcome) (k : Nat) (le : Option JsErr)
    (ds : List Nat) :
    piLoop oracle 3 k le ds =
      match attemptStep (oracle k) with
      | .finish r => (r, k, ds)
      | .clientBreak e => (exhaustedResult (some e), k, ds)
      | .transientErr e =>
        if k < MAX_RETRIES then
          piLoop oracle 2 (k + 1) (some e) (ds ++ [RETRY_DELAY_MS * 2 ^ (k - 1)])
        else
          (exhaustedResult (some e), k, ds) := rfl

lemma piLoop_fuel2 (oracle : Nat → AttemptOutcome) (k : Nat) (le : Option JsErr)
    (ds : List Nat) :
    piLoop oracle 2 k le ds =
      match attemptStep (oracle k) with
      | .finish r => (r, k, ds)
      | .clientBreak e => (exhaustedResult (some e), k, ds)
      | .transientErr e =>
        if k < MAX_RETRIES then
          piLoop oracle 1 (k + 1) (some e) (ds ++ [RETRY_DELAY_MS * 2 ^ (k - 1)])
        else
          (exhaustedResult (some e), k, ds) := rfl

lemma piLoop_fuel1 (oracle : Nat → AttemptOutcome) (k : Nat) (le : Option JsErr)
    (ds : List Nat) :
    piLoop oracle 1 k le ds =
      match attemptStep (oracle k) with
      | .finish r => (r, k, ds)
      | .clientBreak e => (exhaustedResult (some e), k, ds)
      | .transientErr e =>
        if k < MAX_RETRIES then
          piLoop oracle 0 (k + 1) (some e) (ds ++ [RETRY_DELAY_MS * 2 ^ (k - 1)])
        else
          (exhaustedResult (some e), k, ds) := rfl

/-- C4: every call through the Request Client makes at most 3 total
attempts; retries happen only after transient failures (network error,
timeout, downstream 5xx — the hypothesis confines HTTP-error statuses to
the 4xx/5xx taxonomy of the spec); the backoff delays taken are exactly the
doubling sequence RETRY_DELAY_MS * 2 ^ i starting at the base delay, hence
strictly increasing; and if attempts 1 and 2 fail transiently while attempt
3 returns a success payload, the call returns the attempt-3 success
result. -/
theorem C4_retry_policy (oracle : Nat → AttemptOutcome) (url : String)
    (st fm : Option String)
    (hstat : ∀ k s m, oracle k = .httpError s m → 400 ≤ s) :
    (processImageRun oracle).2.1 ≤ 3 ∧
    (processImageRun oracle).2.2 =
      (List.range ((processImageRun oracle).2.1 - 1)).map backoffDelay ∧
    List.Chain' (· < ·) (processImageRun oracle).2.2 ∧
    (∀ j, 1 ≤ j → j < (processImageRun oracle).2.1 → isTransientSpec (oracle j) = true) ∧
    (url ≠ "" → isTransientSpec (oracle 1) = true → isTransientSpec (oracle 2) = true →
      oracle 3 = .response true (some url) st fm →
      processImageRun oracle = ({ success := true, imageUrl := some url }, 3, [2000, 4000])) := by
  have hle : (processImageRun oracle).2.1 ≤ 3 := by
    have h := piLoop_made_le oracle 3 1 none []
    have he : processImageRun oracle = piLoop oracle 3 1 none [] := rfl
    rw [he]
    omega
  have hds : (processImageRun oracle).2.2 =
      (List.range ((processImageRun oracle).2.1 - 1)).map backoffDelay := by
    have h := piLoop_delays_shape oracle 3 1 none (by decide) (by decide) (by decide)
    simpa using h
  refine ⟨hle, hds, ?_, ?_, ?_⟩
  · rw [hds]
    have h2 : (processImageRun oracle).2.1 - 1 ≤ 2 := by omega
    set n := (processImageRun oracle).2.1 - 1 with hn
    interval_cases n
    · simp
    · rw [show List.range 1 = [0] from rfl]
      simp
    · rw [show List.range 2 = [0, 1] from rfl]
      norm_num [List.chain'_cons, backoffDelay, RETRY_DELAY_MS]
  · intro j h1 h2
    exact piLoop_transient_prefix oracle hstat 3 1 none [] j h1 h2
  · intro hurl h1 h2 h3
    obtain ⟨e1, he1⟩ := attemptStep_of_transient _ h1
    obtain ⟨e2, he2⟩ := attemptStep_of_transient _ h2
    have h3' : attemptStep (oracle 3) = .finish { success := true, imageUrl := some url } := by
      rw [h3]
      simp [attemptStep, truthyS, hurl]
    show piLoop oracle 3 1 none [] = _
    rw [piLoop_fuel3, he1]
    norm_num [MAX_RETRIES, RETRY_DELAY_MS]
    rw [piLoop_fuel2, he2]
    norm_num [MAX_RETRIES, RETRY_DELAY_MS]
    rw [piLoop_fuel1, h3']

/-- C4 witness: with attempt 1 a timeout, attempt 2 a network error and
attempt 3 a success payload, the call returns the attempt-3 result after
the backoff delays 2000 and 4000. -/
theorem C4_witness :
    (∀ k s m, oracleW k = .httpError s m → 400 ≤ s) ∧
    processImageRun oracleW =
      ({ success := true, imageUrl := some "https://res.example/img.png" }, 3,
        [2000, 4000]) := by
  have hstat : ∀ k s m, oracleW k = .httpError s m → 400 ≤ s := by
    intro k s m h
    unfold oracleW at h
    by_cases h1 : k = 1
    · simp [h1] at h
    · by_cases h2 : k = 2
      · simp [h1, h2] at h
      · simp [h1, h2] at h
  refine ⟨hstat, ?_⟩
  exact (C4_retry_policy oracleW "https://res.example/img.png" (some "success") none
    hstat).2.2.2.2 (by decide) (by decide) (by decide) rfl

/-- C5: a 4xx response on the first attempt makes the call return a
structured failure immediately: one single attempt, no backoff delay, a
false success flag and the 4xx status as error code. -/
theorem C5_no_retry_on_4xx (oracle : Nat → AttemptOutcome) (s : Nat) (m : String)
    (h1 : oracle 1 = .httpError s m) (h4 : 400 ≤ s) (h5 : s < 500) :
    processImageRun oracle = (exhaustedResult (some ⟨m, some s⟩), 1, []) ∧
    (processImageRun oracle).1.success = false ∧
    (processImageRun oracle).1.errorCode = some (.httpStatus s) ∧
    (processImageRun oracle).2.1 = 1 ∧
    (processImageRun oracle).2.2 = [] := by
  have hstep : attemptStep (oracle 1) = .clientBreak ⟨m, some s⟩ := by
    rw [h1]
    simp only [attemptStep]
    rw [if_pos ⟨h4, h5⟩]
  have hmain : processImageRun oracle = (exhaustedResult (some ⟨m, some s⟩), 1, []) := by
    show piLoop oracle 3 1 none [] = _
    rw [piLoop_fuel3, hstep]
  refine ⟨hmain, ?_, ?_, ?_, ?_⟩
  · rw [hmain]; rfl
  · rw [hmain]
    simp only [exhaustedResult, Option.bind]
    rw [if_neg (by omega : ¬s = 0)]
  · rw [hmain]
  · rw [hmain]

/-- C5 witness: a constant-404 oracle fails after exactly one attempt with
no backoff delay. -/
theorem C5_witness :
    oracle4xx 1 = .httpError 404 "Request failed with status code 404" ∧
    (processImageRun oracle4xx).1.success = false ∧
    (processImageRun oracle4xx).2.1 = 1 ∧
    (processImageRun oracle4xx).2.2 = [] := by
  have h := C5_no_retry_on_4xx oracle4xx 404 "Request failed with status code 404" rfl
    (by norm_num) (by norm_num)
  exact ⟨rfl, h.2.1, h.2.2.2.1, h.2.2.2.2⟩

/-- C10 counterexample: processImage called with the argument shape its
call sites in photo.js actually use (an `{ imageUrl, ... }` object, so the
destructured `prompt` and `imageBase64` are undefined) throws a TypeError
from its logging header instead of returning a structured result, so it is
not exception-free for every input. -/
theorem C10_counterexample :
    processImage photoJsParams oracleNet =
      .error (.typeError "Cannot read properties of undefined (reading \x27length\x27)") := rfl

/-- C10 amended: whenever both `imageBase64` and `prompt` are present as
strings, processImage never throws: it returns a structured result with a
boolean success flag, and every failure result carries an error
description.  (Transport errors, timeouts and non-2xx responses all flow
into that returned failure value.) -/
theorem C10_returns_structured_result (p : PIParams) (oracle : Nat → AttemptOutcome)
    (b pr : String) (hb : p.imageBase64 = some b) (hp : p.prompt = some pr) :
    ∃ r : PIResult × Nat × List Nat, processImage p oracle = .ok r ∧
      (r.1.success = false → r.1.error.isSome = true) := by
  refine ⟨processImageRun oracle, ?_, ?_⟩
  · simp only [processImage, hp, hb]
  · exact piLoop_failure_error oracle 3 1 none []

/-- C10 witness: a typed call (both fields present) with an always-failing
network returns a structured failure rather than throwing. -/
theorem C10_witness :
    ({ imageBase64 := some "QUJD", prompt := some "Add people", userId := some "1" } :
        PIParams).imageBase64 = some "QUJD" ∧
    ({ imageBase64 := some "QUJD", prompt := some "Add people", userId := some "1" } :
        PIParams).prompt = some "Add people" ∧
    ∃ r : PIResult × Nat × List Nat,
      processImage
        { imageBase64 := some "QUJD", prompt := some "Add people", userId := some "1" }
        oracleNet = .ok r ∧
      (r.1.success = false → r.1.error.isSome = true) :=
  ⟨rfl, rfl,
    C10_returns_structured_result
      { imageBase64 := some "QUJD", prompt := some "Add people", userId := some "1" }
      oracleNet "QUJD" "Add people" rfl rfl⟩

/-- C1 counterexample: a theme-selection callback arriving while the
session is in the Processing state is not rejected: the stored record is
mutated (theme overwritten, status moved to awaiting_angle), so an event
invalid for the current state does change the session. -/
theorem C1_counterexample :
    (handleThemeSelection (some cProc) "brunch").1 ≠ some cProc := by
  simp [handleThemeSelection, cProc]

/-- C1 corrected: the handlers validate only that the session record
exists.  An event addressed to a missing (stale/expired) session leaves the
store unchanged, and every handler that performs the lookup answers it with
a stale-session signal; no handler inspects the current state, so events
arriving in the wrong state are applied rather than rejected (see the
counterexample). -/
theorem C1_missing_session_guard (e : Event) (h : isCreateEvent e = false) :
    (step none e).1 = none ∧
      (checksStore e = true → hasExpiredSignal (step none e).2 = true) := by
  cases e <;>
    simp_all [step, isCreateEvent, checksStore, handleDecorPhoto, handleDecorChoice,
      handleThemeSelection, handleAngleSelection, handleImageOk, handleImageRetry,
      handleApprove, handleModify, handleReject, handleStyleChange, handleFeedback,
      handlePlatformSelect, processWithSettings, hasExpiredSignal, isExpiredSignal]

/-- C1 witness: an approve press for an unknown contentId leaves the store
unchanged and yields the stale-session signal. -/
theorem C1_witness :
    isCreateEvent Event.approve = false ∧
    ((step none Event.approve).1 = none ∧
      (checksStore Event.approve = true →
        hasExpiredSignal (step none Event.approve).2 = true)) :=
  ⟨rfl, C1_missing_session_guard Event.approve rfl⟩

lemma attemptsOf_step (content : Content) (e : Event) :
    attemptsOf (step (some content) e).1 = none ∨
    attemptsOf (step (some content) e).1 = content.attempts ∨
    attemptsOf (step (some content) e).1 = some (content.attempts.getD 0 + 1) ∨
    attemptsOf (step (some content) e).1 = jsAdd1 content.attempts := by
  cases e with
  | foodPhoto u ch url f fn ca => left; simp [step, handleFoodPhoto, attemptsOf]
  | decorPhoto url =>
    right; left
    simp only [step, handleDecorPhoto]
    split_ifs <;> simp [attemptsOf]
  | decorChoice choice =>
    right; left
    simp only [step, handleDecorChoice]
    split_ifs <;> simp [attemptsOf]
  | themeSelect t => right; left; simp [step, handleThemeSelection, attemptsOf]
  | angleSelect a r pt =>
    simp only [step, handleAngleSelection, processWithSettings]
    split_ifs <;> simp [attemptsOf]
  | imageOk => right; left; simp [step, handleImageOk, attemptsOf]
  | imageRetry rt r pt =>
    simp only [step, handleImageRetry, processWithVariation]
    split_ifs <;> simp [attemptsOf]
  | approve => right; left; simp [step, handleApprove, attemptsOf]
  | modify => right; left; simp [step, handleModify, attemptsOf]
  | reject => right; left; simp [step, handleReject, attemptsOf]
  | styleChange s =>
    right; left
    simp only [step, handleStyleChange]
    cases hcap : content.caption
    · split_ifs <;> simp [attemptsOf]
    · simp [attemptsOf]
  | feedback ft => left; simp [step, handleFeedback, attemptsOf]
  | platformSelect p => right; left; simp [step, handlePlatformSelect, attemptsOf]

/-- C2 counterexample: a processing attempt that completes with failure is
a completed attempt in the claim's sense, yet the stored record — attempts
counter included — is left exactly as it was, not incremented by 1. -/
theorem C2_counterexample :
    (processWithSettings (some cProc) procFail (some cProc) 7).1 = some cProc ∧
    cProc.attempts = some 1 := ⟨rfl, rfl⟩

/-- C2 corrected: the attempts counter starts absent (read as 0 via
`content.attempts || 0`), never decreases under any event, and is
incremented by exactly 1 on each successfully completed attempt; an attempt
completing in failure leaves the stored counter unchanged. -/
theorem C2_attempts_policy :
    (∀ (c : Option Content) (e : Event) (m n : Nat),
        attemptsOf c = some m → attemptsOf (step c e).1 = some n → m ≤ n) ∧
    (∀ (c : Content) (r : ProcResult) (pt : Nat), r.success = true →
        attemptsOf (processWithSettings (some c) r (some c) pt).1 =
          some (c.attempts.getD 0 + 1)) ∧
    (∀ (c : Content) (r : ProcResult) (cc : Option Content) (pt : Nat), r.success = false →
        attemptsOf (processWithSettings (some c) r cc pt).1 = attemptsOf cc) := by
  refine ⟨?_, ?_, ?_⟩
  · intro c e m n hm hn
    cases c with
    | none => simp [attemptsOf] at hm
    | some content =>
      have hcontent : content.attempts = some m := by simpa [attemptsOf] using hm
      rcases attemptsOf_step content e with h | h | h | h <;> rw [h] at hn
      · simp at hn
      · rw [hcontent] at hn
        simp at hn
        omega
      · rw [hcontent] at hn
        simp at hn
        omega
      · rw [hcontent] at hn
        simp [jsAdd1] at hn
        omega
  · intro c r pt hr
    simp [processWithSettings, hr, attemptsOf]
  · intro c r cc pt hr
    simp [processWithSettings, hr, attemptsOf]

/-- C2 witness: a successful completion on a record with attempts = 1
stores attempts = 2. -/
theorem C2_witness :
    procOk.success = true ∧
    attemptsOf (processWithSettings (some cProc) procOk (some cProc) 7).1 =
      some (cProc.attempts.getD 0 + 1) :=
  ⟨rfl, C2_attempts_policy.2.1 cProc procOk 7 rfl⟩

/-- C3 counterexample: a variation request that fails leaves the concrete
record exactly as it was, still in the Processing state, contradicting the
claim that failure moves the session out of Processing. -/
theorem C3_counterexample :
    (processWithVariation (some cProcB) procFail (some cProcB) 9).1 = some cProcB ∧
    cProcB.status = SessionState.processing := ⟨rfl, rfl⟩

/-- C3 corrected: when a processing request completes in failure, the
handlers do produce the user-visible failure reply, but they do not move
the session out of Processing: the stored record is left exactly as it is
at completion time (the user can only recover by sending a new photo,
which starts a fresh session). -/
theorem C3_failure_keeps_processing (c : Content) (r : ProcResult) (cc : Option Content)
    (pt : Nat) (hr : r.success = false) :
    ((processWithSettings (some c) r cc pt).1 = cc ∧
      Eff.reply settingsFailureText ∈ (processWithSettings (some c) r cc pt).2) ∧
    ((processWithVariation (some c) r cc pt).1 = cc ∧
      Eff.reply variationFailureText ∈ (processWithVariation (some c) r cc pt).2) := by
  simp [processWithSettings, processWithVariation, hr]

/-- C3 witness: the failure branch at a concrete Processing-state record
keeps the record and emits the failure reply. -/
theorem C3_witness :
    procFail.success = false ∧
    (processWithSettings (some cProc) procFail (some cProc) 5).1 = some cProc ∧
    Eff.reply settingsFailureText ∈ (processWithSettings (some cProc) procFail (some cProc) 5).2 :=
  ⟨rfl, (C3_failure_keeps_processing cProc procFail (some cProc) 5 rfl).1.1,
    (C3_failure_keeps_processing cProc procFail (some cProc) 5 rfl).1.2⟩

lemma decor_step_le (c : Option Content) (e : Event) (h : decorLen c ≤ 3) :
    decorLen (step c e).1 ≤ 3 := by
  cases c with
  | none =>
    cases e <;>
      simp [step, handleFoodPhoto, handleDecorPhoto, handleDecorChoice, handleThemeSelection,
        handleAngleSelection, handleImageOk, handleImageRetry, handleApprove, handleModify,
        handleReject, handleStyleChange, handleFeedback, handlePlatformSelect, decorLen]
  | some content =>
    simp only [decorLen] at h
    cases e with
    | foodPhoto u ch url f fn ca => simp [step, handleFoodPhoto, decorLen]
    | decorPhoto url =>
      simp only [step, handleDecorPhoto]
      split_ifs with h1 h2 <;> simp [decorLen] <;> omega
    | decorChoice choice =>
      simp only [step, handleDecorChoice]
      split_ifs <;> simp [decorLen] <;> omega
    | themeSelect t => simpa [step, handleThemeSelection, decorLen] using h
    | angleSelect a r pt =>
      simp only [step, handleAngleSelection, processWithSettings]
      split_ifs <;> simp [decorLen] <;> omega
    | imageOk => simpa [step, handleImageOk, decorLen] using h
    | imageRetry rt r pt =>
      simp only [step, handleImageRetry, processWithVariation]
      split_ifs <;> simp [decorLen] <;> omega
    | approve => simpa [step, handleApprove, decorLen] using h
    | modify => simpa [step, handleModify, decorLen] using h
    | reject => simpa [step, handleReject, decorLen] using h
    | styleChange s =>
      simp only [step, handleStyleChange]
      cases hcap : content.caption
      · split_ifs <;> simp [decorLen] <;> omega
      · simp only [decorLen]
        omega
    | feedback ft => simp [step, handleFeedback, decorLen]
    | platformSelect p => simpa [step, handlePlatformSelect, decorLen] using h

/-- C6: the stored decor reference list never exceeds 3 under any sequence
of events; a decor photo arriving at the cap leaves the record unchanged
(the event is rejected with a prompt), and one arriving below the cap
appends exactly one reference. -/
theorem C6_decor_cap :
    (∀ (c : Option Content) (es : List Event), decorLen c ≤ 3 →
      decorLen (runEvents c es) ≤ 3) ∧
    (∀ (c : Content) (url : String), 3 ≤ c.decorPhotos.length →
      (handleDecorPhoto (some c) url).1 = some c) ∧
    (∀ (c : Content) (url : String), c.decorPhotos.length < 3 →
      (handleDecorPhoto (some c) url).1 =
        some { c with decorPhotos := c.decorPhotos ++ [url] }) := by
  refine ⟨?_, ?_, ?_⟩
  · intro c es h
    induction es generalizing c with
    | nil => simpa [runEvents] using h
    | cons e es ih =>
      simp only [runEvents, List.foldl_cons]
      exact ih _ (decor_step_le c e h)
  · intro c url h
    simp only [handleDecorPhoto]
    rw [if_pos h]
  · intro c url h
    simp only [handleDecorPhoto]
    rw [if_neg (by omega : ¬3 ≤ c.decorPhotos.length)]
    split_ifs <;> rfl

/-- C6 witness: at the cap the fourth decor photo is rejected without
appending; below the cap exactly one reference is appended. -/
theorem C6_witness :
    3 ≤ cCollect.decorPhotos.length ∧
    (handleDecorPhoto (some cCollect) "https://d/4.jpg").1 = some cCollect :=
  ⟨by decide, C6_decor_cap.2.1 cCollect "https://d/4.jpg" (by decide)⟩

/-- C7: a second approve press after the first has been applied is an
idempotent no-op: the stored record does not change again, the emitted
effects are identical to the first press, and no stale-session or error
signal reaches the user. -/
theorem C7_approve_idempotent (c : Content) :
    (step (step (some c) .approve).1 .approve).1 = (step (some c) .approve).1 ∧
    (step (step (some c) .approve).1 .approve).2 = (step (some c) .approve).2 ∧
    hasExpiredSignal (step (step (some c) .approve).1 .approve).2 = false := by
  refine ⟨rfl, rfl, ?_⟩
  simp [step, handleApprove, hasExpiredSignal, isExpiredSignal]

/-- C8 counterexample: if the record is deleted while the request is in
flight (the store holds none at completion time), a successful completion
re-creates a record under the sessionId instead of discarding the result. -/
theorem C8_counterexample :
    (processWithSettings (some cProcC) procOk none 7).1 ≠ none := by
  simp [processWithSettings, procOk]

/-- C8 corrected: a missing record is only treated as a normal non-fatal
outcome at the start of processing (stale-session answer, store untouched,
no crash); a record deleted while the request is in flight stays deleted
only when the request fails — a successful completion re-inserts a record
built from the pre-request snapshot. -/
theorem C8_inflight_deletion :
    (∀ (r : ProcResult) (cc : Option Content) (pt : Nat),
      processWithSettings none r cc pt = (cc, [Eff.answerCb "⚠️ Session expirée"])) ∧
    (∀ (c : Content) (r : ProcResult) (pt : Nat), r.success = false →
      (processWithSettings (some c) r none pt).1 = none ∧
      (processWithVariation (some c) r none pt).1 = none) ∧
    (∀ (c : Content) (r : ProcResult) (pt : Nat), r.success = true →
      ((processWithSettings (some c) r none pt).1).isSome = true) := by
  refine ⟨fun r cc pt => rfl, ?_, ?_⟩
  · intro c r pt hr
    exact ⟨by simp [processWithSettings, hr], by simp [processWithVariation, hr]⟩
  · intro c r pt hr
    simp [processWithSettings, hr]

/-- C8 witness: a success completing after mid-flight deletion re-creates
the record. -/
theorem C8_witness :
    procOk.success = true ∧
    ((processWithSettings (some cProcC) procOk none 7).1).isSome = true :=
  ⟨rfl, C8_inflight_deletion.2.2 cProcC procOk 7 rfl⟩

/-- C9: the caption remix on the modify branch is a pure local transform:
the new record differs only in the caption, which is a function of the
style tag and the previous caption alone (hence deterministic), the Request
Client is never invoked, and the attempts counter is unchanged. -/
theorem C9_remix_pure (c : Content) (style cap : String) (hcap : c.caption = some cap) :
    (step (some c) (.styleChange style)).1 =
      some { c with caption := some (remixCaption style cap) } ∧
    callsN8n (step (some c) (.styleChange style)).2 = false ∧
    attemptsOf (step (some c) (.styleChange style)).1 = c.attempts ∧
    (∀ c2 : Content, c2.caption = some cap →
      captionOf (step (some c2) (.styleChange style)).1 =
        captionOf (step (some c) (.styleChange style)).1) := by
  refine ⟨?_, ?_, ?_, ?_⟩
  · simp [step, handleStyleChange, hcap]
  · simp [step, handleStyleChange, hcap, callsN8n, isN8nCall]
  · simp [step, handleStyleChange, hcap, attemptsOf]
  · intro c2 h2
    simp [step, handleStyleChange, hcap, h2, captionOf]

/-- C9 witness: the punchy remix on a concrete record rewrites only the
caption, from the pure transform of the old caption. -/
theorem C9_witness :
    cProcB.caption = some "Bon appétit." ∧
    (step (some cProcB) (Event.styleChange "punchy")).1 =
      some { cProcB with caption := some (remixCaption "punchy" "Bon appétit.") } :=
  ⟨rfl, (C9_remix_pure cProcB "punchy" "Bon appétit." rfl).1⟩
